import Mathlib

/-!
Verification of the build/edition metadata header `CBL_Edition.h` of
couchbase-lite-rust (vendored libcblite 3.0.1).

The header consists of a guarded preprocessor definition of the edition flag
`COUCHBASE_ENTERPRISE` and four literal constants:

  #ifndef COUCHBASE_ENTERPRISE
  #define COUCHBASE_ENTERPRISE
  #endif
  #define CBLITE_VERSION "3.0.1"
  #define CBLITE_VERSION_NUMBER 3000001
  #define CBLITE_BUILD_NUMBER 7
  #define CBLITE_SOURCE_ID "2022-03-10T16:25:06 988a7ec+3da8078"

We embed the constants directly, and the `#ifndef` guard as a function on the
number of active preprocessor definitions of the macro.
-/

namespace CBLEdition

/-- The literal of `#define CBLITE_VERSION "3.0.1"`. -/
def CBLITE_VERSION : String := "3.0.1"

/-- The literal of `#define CBLITE_VERSION_NUMBER 3000001`. -/
def CBLITE_VERSION_NUMBER : Nat := 3000001

/-- The literal of `#define CBLITE_BUILD_NUMBER 7` (a C integer literal,
embedded as an integer so that non-negativity is a real statement). -/
def CBLITE_BUILD_NUMBER : Int := 7

/-- The literal of `#define CBLITE_SOURCE_ID "2022-03-10T16:25:06 988a7ec+3da8078"`. -/
def CBLITE_SOURCE_ID : String := "2022-03-10T16:25:06 988a7ec+3da8078"

/-- The edition flag: after this header is preprocessed the macro
`COUCHBASE_ENTERPRISE` is defined, i.e. the enterprise feature tier is
compiled in. -/
def COUCHBASE_ENTERPRISE : Bool := true

/-- The effect of the guarded block

  #ifndef COUCHBASE_ENTERPRISE / #define COUCHBASE_ENTERPRISE / #endif

on the number `n` of active preprocessor definitions of the macro
`COUCHBASE_ENTERPRISE`: if the macro is not yet defined (`n = 0`) the block
defines it once; otherwise the block is skipped and `n` is unchanged. -/
def includeEditionHeader (n : Nat) : Nat :=
  if n = 0 then 1 else n

/-- Reading the edition flag at any point of the artifact's life: a pure
read of the compile-time constant. -/
def readEditionFlag (_t : Nat) : Bool := COUCHBASE_ENTERPRISE

/-- Reading the version string at any point of the artifact's life. -/
def readVersionString (_t : Nat) : String := CBLITE_VERSION

/-- Reading the version number at any point of the artifact's life. -/
def readVersionNumber (_t : Nat) : Nat := CBLITE_VERSION_NUMBER

/-- Reading the build number at any point of the artifact's life. -/
def readBuildNumber (_t : Nat) : Int := CBLITE_BUILD_NUMBER

/-- Reading the source id at any point of the artifact's life. -/
def readSourceID (_t : Nat) : String := CBLITE_SOURCE_ID

/-- Split a character list on the dot character, keeping empty groups, as
`splitOn "."` does on the string's characters. -/
def splitOnDot : List Char → List (List Char)
  | [] => [[]]
  | ch :: rest =>
    match splitOnDot rest with
    | [] => [[ch]]
    | g :: gs => if ch = '.' then [] :: g :: gs else (ch :: g) :: gs

/-- Read a non-empty all-digit character group as the non-negative integer
it denotes; `none` when the group is empty or holds a non-digit. -/
def digitsToNat : List Char → Option Nat
  | l =>
    if l ≠ [] ∧ l.all Char.isDigit then
      some (l.foldl (fun n ch => n * 10 + (ch.toNat - 48)) 0)
    else
      none

/-- Parse a dotted version string `\d+.\d+.\d+` as three non-negative
integers separated by a single dot each; `none` when the string is not of
that shape.  `digitsToNat` succeeds exactly on non-empty all-digit groups,
so success of `parseVersion` is success of the anchored pattern. -/
def parseVersion (s : String) : Option (Nat × Nat × Nat) :=
  match splitOnDot s.data with
  | [a, b, c] =>
    match digitsToNat a, digitsToNat b, digitsToNat c with
    | some x, some y, some z => some (x, y, z)
    | _, _, _ => none
  | _ => none

/-- Ordinary lexicographic comparison of character lists, the order that
comparing the dotted version strings as plain text uses. -/
def charListLt : List Char → List Char → Bool
  | [], [] => false
  | [], _ :: _ => true
  | _ :: _, [] => false
  | a :: as, b :: bs => if a < b then true else if b < a then false else charListLt as bs

/-- Plain-text (lexicographic) comparison of two strings. -/
def stringTextLt (s1 s2 : String) : Bool :=
  charListLt s1.data s2.data

/-- The fixed encoding named by the spec for `CBLITE_VERSION_NUMBER`:
`major*1_000_000 + minor*1_000 + patch`. -/
def encodeVersion (major minor patch : Nat) : Nat :=
  major * 1000000 + minor * 1000 + patch

/-- Decode a packed version number into its (major, minor, patch)
components. -/
def decodeVersion (n : Nat) : Nat × Nat × Nat :=
  (n / 1000000, (n / 1000) % 1000, n % 1000)

/-- Component-wise lexicographic order on (major, minor, patch) triples. -/
def versionLexLe (a1 b1 c1 a2 b2 c2 : Nat) : Prop :=
  a1 < a2 ∨ (a1 = a2 ∧ (b1 < b2 ∨ (b1 = b2 ∧ c1 ≤ c2)))

instance (a1 b1 c1 a2 b2 c2 : Nat) : Decidable (versionLexLe a1 b1 c1 a2 b2 c2) := by
  unfold versionLexLe
  infer_instance

end CBLEdition

namespace CBLEdition

/-- C1: the three integers parsed from `CBLITE_VERSION` ("3.0.1") are
(3, 0, 1), and `CBLITE_VERSION_NUMBER` equals their fixed encoding
`major*1_000_000 + minor*1_000 + patch`, concretely 3000001. -/
theorem c1_version_number_matches_version_string :
    parseVersion CBLITE_VERSION = some (3, 0, 1) ∧
    CBLITE_VERSION_NUMBER = encodeVersion 3 0 1 ∧
    CBLITE_VERSION_NUMBER = 3000001 := by
  refine ⟨?_, rfl, rfl⟩
  decide

/-- C2: the guarded block defines `COUCHBASE_ENTERPRISE` only when it is not
already defined, so from any legal pre-state (the macro defined at most
once) the macro is defined exactly once after inclusion; and the edition
flag read yields `true`, the enterprise tier being compiled in. -/
theorem c2_edition_flag_defined_exactly_once (n : Nat) (h : n ≤ 1) :
    includeEditionHeader n = 1 ∧ COUCHBASE_ENTERPRISE = true := by
  constructor
  · unfold includeEditionHeader
    split <;> omega
  · rfl

/-- Witness for C2 at the pre-state with the macro not yet defined. -/
theorem c2_edition_flag_defined_exactly_once_witness :
    includeEditionHeader 0 = 1 ∧ COUCHBASE_ENTERPRISE = true :=
  c2_edition_flag_defined_exactly_once 0 (by decide)

/-- C3: `CBLITE_VERSION` is non-empty and matches `^d+.d+.d+$` in the sense
that it parses as exactly three non-negative integers separated by dots. -/
theorem c3_version_string_well_formed :
    CBLITE_VERSION ≠ "" ∧ ∃ x y z, parseVersion CBLITE_VERSION = some (x, y, z) := by
  refine ⟨by decide, 3, 0, 1, ?_⟩
  decide

/-- C4: for versions whose components are all below 1000, the fixed decimal
packing is order-correct: `encodeVersion v1 ≤ encodeVersion v2` iff `v1 ≤ v2`
in component-wise lexicographic order — unlike comparison of the dotted
strings, which orders "10.0.0" before "9.0.0" although 10.0.0 is the later
version. -/
theorem c4_encoding_order_correct (a1 b1 c1 a2 b2 c2 : Nat)
    (ha1 : a1 < 1000) (hb1 : b1 < 1000) (hc1 : c1 < 1000)
    (ha2 : a2 < 1000) (hb2 : b2 < 1000) (hc2 : c2 < 1000) :
    (encodeVersion a1 b1 c1 ≤ encodeVersion a2 b2 c2 ↔ versionLexLe a1 b1 c1 a2 b2 c2) ∧
    (stringTextLt "10.0.0" "9.0.0" = true ∧ ¬ versionLexLe 10 0 0 9 0 0) := by
  refine ⟨?_, by decide, by decide⟩
  unfold encodeVersion versionLexLe
  omega

/-- Witness for C4 at versions 3.0.1 and 3.1.0. -/
theorem c4_encoding_order_correct_witness :
    (encodeVersion 3 0 1 ≤ encodeVersion 3 1 0 ↔ versionLexLe 3 0 1 3 1 0) ∧
    (stringTextLt "10.0.0" "9.0.0" = true ∧ ¬ versionLexLe 10 0 0 9 0 0) :=
  c4_encoding_order_correct 3 0 1 3 1 0
    (by decide) (by decide) (by decide) (by decide) (by decide) (by decide)

/-- C5: repeated reads of the five fields return identical values at any two
points of the artifact's life: each read is a pure constant function. -/
theorem c5_reads_stable (t1 t2 : Nat) :
    readEditionFlag t1 = readEditionFlag t2 ∧
    readVersionString t1 = readVersionString t2 ∧
    readVersionNumber t1 = readVersionNumber t2 ∧
    readBuildNumber t1 = readBuildNumber t2 ∧
    readSourceID t1 = readSourceID t2 :=
  ⟨rfl, rfl, rfl, rfl, rfl⟩

/-- C6: `CBLITE_BUILD_NUMBER` is a fixed integer greater than or equal
to 0 (its value is 7). -/
theorem c6_build_number_nonneg :
    0 ≤ CBLITE_BUILD_NUMBER ∧ CBLITE_BUILD_NUMBER = 7 :=
  ⟨by decide, rfl⟩

/-- C7: no read can fail: each of the five reads is a total function that at
every point resolves to its constant literal value, with no error branch or
error result. -/
theorem c7_reads_total_and_constant (t : Nat) :
    readEditionFlag t = true ∧
    readVersionString t = "3.0.1" ∧
    readVersionNumber t = 3000001 ∧
    readBuildNumber t = 7 ∧
    readSourceID t = "2022-03-10T16:25:06 988a7ec+3da8078" :=
  ⟨rfl, rfl, rfl, rfl, rfl⟩

/-- C8: `CBLITE_SOURCE_ID` is a fixed, non-empty text value, returned
unchanged by every read; the artifact itself contains no logic, so nothing
in it parses or branches on the value's internal structure. -/
theorem c8_source_id_fixed_nonempty (t : Nat) :
    readSourceID t = CBLITE_SOURCE_ID ∧ CBLITE_SOURCE_ID ≠ "" :=
  ⟨rfl, by decide⟩

/-- Witness helper is not needed for C8: its only binder is of data type.
C9: after the guarded block runs, the macro `COUCHBASE_ENTERPRISE` is
defined no matter what the pre-state was — from every starting count the
resulting definition count is positive, so the community (flag-absent)
configuration is unreachable through this file alone. -/
theorem c9_flag_always_defined_after_inclusion (n : Nat) :
    0 < includeEditionHeader n := by
  unfold includeEditionHeader
  split <;> omega

/-- C10: decoding `CBLITE_VERSION_NUMBER` (3000001) yields exactly (3, 0, 1),
the components of `CBLITE_VERSION`; and decoding inverts the encoding for
all components below 1000, so the encoding is injective on that range. -/
theorem c10_decode_round_trip (a b c : Nat)
    (ha : a < 1000) (hb : b < 1000) (hc : c < 1000) :
    decodeVersion CBLITE_VERSION_NUMBER = (3, 0, 1) ∧
    decodeVersion (encodeVersion a b c) = (a, b, c) := by
  constructor
  · rfl
  · unfold decodeVersion encodeVersion
    refine Prod.ext ?_ (Prod.ext ?_ ?_) <;> simp only [] <;> omega

/-- Witness for C10 at the shipped components (3, 0, 1). -/
theorem c10_decode_round_trip_witness :
    decodeVersion CBLITE_VERSION_NUMBER = (3, 0, 1) ∧
    decodeVersion (encodeVersion 3 0 1) = (3, 0, 1) :=
  c10_decode_round_trip 3 0 1 (by decide) (by decide) (by decide)

end CBLEdition
